import Mathlib

/-!
Verification development for the webmonitor repository (src/main.py).
The program is a linear pipeline: fetch a webpage, extract the text of the
div with id "home", hash it with MD5, compare against a persisted checksum
file, email an alert on change, and persist the new checksum.

The embedding below models:
  * `calculate_checksum` faithfully, with a full executable MD5 over the
    UTF-8 bytes of the input string (hashlib.md5(content.encode("utf-8")).hexdigest());
  * HTTP fetching abstractly: a run input carries the response status and the
    parsed body; `requests.raise_for_status` raises exactly for statuses in
    400..599;
  * HTML extraction abstractly: a body is represented by the optional raw
    text of the target div; BeautifulSoup get_text with strip=True strips
    surrounding whitespace;
  * the checksum file as an `Option String` (absent or its contents);
  * side effects (prints, the HTTP GET, the email attempt, file saves) as an
    explicit event trace.
-/

namespace WebMonitor

set_option maxRecDepth 400000

/-! ## MD5 over byte lists (bytes are `Nat` values below 256) -/

/-- Truncate to a 32-bit word. -/
def w32 (n : Nat) : Nat := n % 4294967296

/-- 32-bit left rotation (inputs are assumed below two to the 32). -/
def rotl (x n : Nat) : Nat := w32 ((x <<< n) ||| (x >>> (32 - n)))

/-- The 64 MD5 sine-derived constants. -/
def md5Ks : List Nat :=
  [3614090360, 3905402710, 606105819, 3250441966, 4118548399, 1200080426, 2821735955, 4249261313,
   1770035416, 2336552879, 4294925233, 2304563134, 1804603682, 4254626195, 2792965006, 1236535329,
   4129170786, 3225465664, 643717713, 3921069994, 3593408605, 38016083, 3634488961, 3889429448,
   568446438, 3275163606, 4107603335, 1163531501, 2850285829, 4243563512, 1735328473, 2368359562,
   4294588738, 2272392833, 1839030562, 4259657740, 2763975236, 1272893353, 4139469664, 3200236656,
   681279174, 3936430074, 3572445317, 76029189, 3654602809, 3873151461, 530742520, 3299628645,
   4096336452, 1126891415, 2878612391, 4237533241, 1700485571, 2399980690, 4293915773, 2240044497,
   1873313359, 4264355552, 2734768916, 1309151649, 4149444226, 3174756917, 718787259, 3951481745]

/-- The 64 MD5 per-round shift amounts. -/
def md5Ss : List Nat :=
  [7, 12, 17, 22, 7, 12, 17, 22, 7, 12, 17, 22, 7, 12, 17, 22,
   5, 9, 14, 20, 5, 9, 14, 20, 5, 9, 14, 20, 5, 9, 14, 20,
   4, 11, 16, 23, 4, 11, 16, 23, 4, 11, 16, 23, 4, 11, 16, 23,
   6, 10, 15, 21, 6, 10, 15, 21, 6, 10, 15, 21, 6, 10, 15, 21]

/-- MD5 nonlinear function for round index `i`. -/
def md5F (b c d i : Nat) : Nat :=
  if i < 16 then (b &&& c) ||| ((4294967295 ^^^ b) &&& d)
  else if i < 32 then (d &&& b) ||| ((4294967295 ^^^ d) &&& c)
  else if i < 48 then b ^^^ c ^^^ d
  else c ^^^ (b ||| (4294967295 ^^^ d))

/-- MD5 message-word index for round index `i`. -/
def md5G (i : Nat) : Nat :=
  if i < 16 then i
  else if i < 32 then (5 * i + 1) % 16
  else if i < 48 then (3 * i + 5) % 16
  else (7 * i) % 16

/-- Little-endian 32-bit word `j` of a 64-byte block. -/
def leWord (block : List Nat) (j : Nat) : Nat :=
  block.getD (4 * j) 0 + 256 * block.getD (4 * j + 1) 0 +
    65536 * block.getD (4 * j + 2) 0 + 16777216 * block.getD (4 * j + 3) 0

/-- One of the 64 MD5 rounds. -/
def md5Step (block : List Nat) (st : Nat × Nat × Nat × Nat) (i : Nat) : Nat × Nat × Nat × Nat :=
  let a := st.1
  let b := st.2.1
  let c := st.2.2.1
  let d := st.2.2.2
  let f := w32 (md5F b c d i + a + md5Ks.getD i 0 + leWord block (md5G i))
  (d, w32 (b + rotl f (md5Ss.getD i 0)), b, c)

/-- Process one 64-byte block. -/
def md5Block (st : Nat × Nat × Nat × Nat) (block : List Nat) : Nat × Nat × Nat × Nat :=
  let r := (List.range 64).foldl (md5Step block) st
  (w32 (st.1 + r.1), w32 (st.2.1 + r.2.1), w32 (st.2.2.1 + r.2.2.1), w32 (st.2.2.2 + r.2.2.2))

/-- Process the padded message 64 bytes at a time; `fuel` bounds the recursion
and is at least the number of blocks whenever it is at least the list length. -/
def md5Blocks (fuel : Nat) (st : Nat × Nat × Nat × Nat) (l : List Nat) : Nat × Nat × Nat × Nat :=
  match fuel, l with
  | 0, _ => st
  | _, [] => st
  | fuel + 1, l => md5Blocks fuel (md5Block st (l.take 64)) (l.drop 64)

/-- MD5 padding: append the 0x80 byte, zeros to 56 mod 64, then the bit
length as a little-endian 64-bit value. -/
def md5Pad (msg : List Nat) : List Nat :=
  let len := msg.length
  let zeros := (119 - len % 64) % 64
  let bitlen := (8 * len) % 18446744073709551616
  msg ++ 128 :: List.replicate zeros 0 ++
    (List.range 8).map (fun i => (bitlen >>> (8 * i)) % 256)

/-- The MD5 initial chaining value. -/
def md5Init : Nat × Nat × Nat × Nat := (1732584193, 4023233417, 2562383102, 271733878)

/-- Final chaining value for a message. -/
def md5Final (msg : List Nat) : Nat × Nat × Nat × Nat :=
  md5Blocks (md5Pad msg).length md5Init (md5Pad msg)

/-- A 32-bit word as four little-endian bytes. -/
def leBytes (x : Nat) : List Nat :=
  [x % 256, (x >>> 8) % 256, (x >>> 16) % 256, (x >>> 24) % 256]

/-- The 16-byte MD5 digest of a message. -/
def md5Bytes (msg : List Nat) : List Nat :=
  leBytes (md5Final msg).1 ++ leBytes (md5Final msg).2.1 ++
    leBytes (md5Final msg).2.2.1 ++ leBytes (md5Final msg).2.2.2

/-- Lower-case hex character for a value below 16. -/
def hexChar (n : Nat) : Char :=
  if n < 10 then Char.ofNat (48 + n) else Char.ofNat (87 + n)

/-- The two hex characters of a byte. -/
def byteHexChars (b : Nat) : List Char := [hexChar (b / 16), hexChar (b % 16)]

/-- Hex encoding of a byte list, as in hexdigest. -/
def hexdigest (bytes : List Nat) : String := String.mk (bytes.flatMap byteHexChars)

/-- The UTF-8 bytes of a single code point. -/
def charUtf8 (c : Char) : List Nat :=
  let n := c.toNat
  if n < 128 then [n]
  else if n < 2048 then [192 + n / 64, 128 + n % 64]
  else if n < 65536 then [224 + n / 4096, 128 + n / 64 % 64, 128 + n % 64]
  else [240 + n / 262144, 128 + n / 4096 % 64, 128 + n / 64 % 64, 128 + n % 64]

/-- The UTF-8 encoding of a string, as a byte list. -/
def utf8Bytes (s : String) : List Nat := s.data.flatMap charUtf8

/-- calculate_checksum from src/main.py:
hashlib.md5(content.encode("utf-8")).hexdigest(). -/
def calculate_checksum (content : String) : String := hexdigest (md5Bytes (utf8Bytes content))

/-! ## Whitespace stripping -/

/-- Whitespace characters stripped by Python str.strip (ASCII range). -/
def pyWhitespace (c : Char) : Bool :=
  c = ' ' || c = '\t' || c = '\n' || c = '\r' || c = '\x0b' || c = '\x0c'

/-- Python str.strip with no argument: remove leading and trailing
whitespace. -/
def pyStrip (s : String) : String :=
  String.mk (((s.data.dropWhile pyWhitespace).reverse.dropWhile pyWhitespace).reverse)

/-! ## The monitored page and the HTTP layer -/

/-- A fetched HTML body, abstracted to the data the program inspects: the raw
text content of the div with id "home", when that div is present. -/
structure Html where
  home : Option String
deriving DecidableEq

/-- An HTTP response: its status code and its body. -/
structure HttpResponse where
  status : Nat
  text : Html
deriving DecidableEq

/-- fetch_webpage from src/main.py: requests.get followed by
raise_for_status, which raises exactly for status codes 400..599; otherwise
the response body is returned. The error value carries the status. -/
def fetch_webpage (resp : HttpResponse) : Except Nat Html :=
  if 400 ≤ resp.status ∧ resp.status < 600 then Except.error resp.status
  else Except.ok resp.text

/-- extract_target_content from src/main.py: find the div with id "home";
if present return its text with strip=True (surrounding whitespace removed),
else raise ValueError with the given message. -/
def extract_target_content (html : Html) : Except String String :=
  match html.home with
  | some t => Except.ok (pyStrip t)
  | none => Except.error "Target <div> not found on the webpage."

/-! ## State store -/

/-- load_previous_checksum from src/main.py: if the file exists, read it and
strip surrounding whitespace; otherwise None. The file is modelled as
`Option String` (absent, or its full contents). -/
def load_previous_checksum (file : Option String) : Option String :=
  match file with
  | some contents => some (pyStrip contents)
  | none => none

/-- save_checksum from src/main.py: overwrite the file with the checksum.
Returns the new file contents. -/
def save_checksum (checksum : String) : Option String := some checksum

/-! ## Configuration -/

/-- EMAIL_CONFIG from src/main.py: the three values read from the
environment, each possibly absent. -/
structure EmailConfig where
  sender : Option String
  password : Option String
  receiver : Option String
deriving DecidableEq

/-- Python truthiness of an optional string: None and the empty string are
falsy, every other string is truthy. -/
def truthy (v : Option String) : Bool :=
  match v with
  | none => false
  | some s => !s.isEmpty

/-- The guard in the main block: all(EMAIL_CONFIG.values()). -/
def configOk (cfg : EmailConfig) : Bool :=
  truthy cfg.sender && truthy cfg.password && truthy cfg.receiver

/-! ## Side effects as an event trace -/

/-- Observable side effects of a run, in order. -/
inductive Event where
  | printed (msg : String)
  | httpGet (url : String)
  | emailAttempted (subject body : String)
  | emailDelivered
  | savedState (checksum : String)
deriving DecidableEq

/-- send_email from src/main.py. The whole body is wrapped in try/except
catching every exception; `smtpOk` is whether building and sending the
message succeeds. In both cases the function returns normally. -/
def send_email (smtpOk : Bool) (subject body : String) : List Event :=
  Event.emailAttempted subject body ::
    (if smtpOk then [Event.emailDelivered, Event.printed "Alert email sent successfully!"]
     else [Event.printed "Failed to send email"])

/-! ## Orchestrator -/

/-- The fixed URL from src/main.py. -/
def URL : String := "https://www.ufmg.br/copeve/site_novo/?pagina=1"

/-- The email body built in monitor_website for a changed run. -/
def alertBody (target_content : String) : String :=
  "The specific section of the website has changed:\n\n" ++ target_content

/-- How a run ends: normal return, an uncaught fetch exception, or the
configuration-error early exit of the main block. -/
inductive Outcome where
  | completed
  | fetchCrash (status : Nat)
  | configError
deriving DecidableEq

/-- External behaviour a single run encounters: the HTTP response the fixed
URL yields and whether the SMTP session succeeds. -/
structure RunInput where
  resp : HttpResponse
  smtpOk : Bool
deriving DecidableEq

/-- Result of a run: the checksum file afterwards, the ordered event trace,
and how the run ended. -/
structure RunResult where
  state : Option String
  events : List Event
  outcome : Outcome
deriving DecidableEq

/-- monitor_website from src/main.py, over the checksum file `st`. The fetch
error is not caught here and crashes the run; the extraction error is caught,
printed and ends the run normally; a changed run sends the alert and then
saves the new checksum. -/
def monitor_website (inp : RunInput) (st : Option String) : RunResult :=
  let ev0 := [Event.printed "Fetching the webpage...", Event.httpGet URL]
  match fetch_webpage inp.resp with
  | Except.error status => RunResult.mk st ev0 (Outcome.fetchCrash status)
  | Except.ok html =>
    let ev1 := ev0 ++ [Event.printed "Extracting target content..."]
    match extract_target_content html with
    | Except.error msg =>
      RunResult.mk st (ev1 ++ [Event.printed msg]) Outcome.completed
    | Except.ok target_content =>
      let current_checksum := calculate_checksum target_content
      match load_previous_checksum st with
      | none =>
        RunResult.mk (save_checksum current_checksum)
          (ev1 ++ [Event.printed "No previous checksum found. Saving current state...",
                   Event.savedState current_checksum])
          Outcome.completed
      | some previous_checksum =>
        if current_checksum ≠ previous_checksum then
          RunResult.mk (save_checksum current_checksum)
            (ev1 ++ Event.printed "Change detected! Sending alert..." ::
              send_email inp.smtpOk "Website Change Detected" (alertBody target_content) ++
              [Event.savedState current_checksum])
            Outcome.completed
        else
          RunResult.mk st (ev1 ++ [Event.printed "No changes detected."]) Outcome.completed

/-- The main block of src/main.py: check that all three configuration values
are truthy; if not, print the error and stop before doing anything else,
otherwise run monitor_website. -/
def runMain (cfg : EmailConfig) (inp : RunInput) (st : Option String) : RunResult :=
  if configOk cfg then monitor_website inp st
  else RunResult.mk st
    [Event.printed "Error: Missing email configuration. Check your .env file."]
    Outcome.configError

/-- The text the run extracts, when fetch and extraction both succeed. -/
def extractedText (inp : RunInput) : Option String :=
  match fetch_webpage inp.resp with
  | Except.error _ => none
  | Except.ok html => (extract_target_content html).toOption

/-- Whether a character is a lower-case hexadecimal digit. -/
def isHexDigit (c : Char) : Bool := c.isDigit || ('a' ≤ c && c ≤ 'f')

/-! ## Helper lemmas about the digest format -/

lemma isHexDigit_hexChar (n : Nat) (h : n < 16) : isHexDigit (hexChar n) = true := by
  interval_cases n <;> decide

lemma mem_leBytes_lt (x b : Nat) (h : b ∈ leBytes x) : b < 256 := by
  simp only [leBytes, List.mem_cons, List.not_mem_nil, or_false] at h
  rcases h with h | h | h | h <;> subst h <;> exact Nat.mod_lt _ (by omega)

lemma mem_md5Bytes_lt (m : List Nat) (b : Nat) (h : b ∈ md5Bytes m) : b < 256 := by
  simp only [md5Bytes, List.mem_append] at h
  rcases h with ((h | h) | h) | h <;> exact mem_leBytes_lt _ _ h

lemma md5Bytes_length (m : List Nat) : (md5Bytes m).length = 16 := by
  simp [md5Bytes, leBytes]

lemma length_flatMap_byteHexChars (l : List Nat) :
    (l.flatMap byteHexChars).length = 2 * l.length := by
  induction l with
  | nil => rfl
  | cons b l ih =>
    simp [List.flatMap_cons, byteHexChars, ih]
    omega

lemma hexdigest_length (l : List Nat) : (hexdigest l).length = 2 * l.length := by
  show (l.flatMap byteHexChars).length = 2 * l.length
  exact length_flatMap_byteHexChars l

lemma hexdigest_hex (l : List Nat) (hl : ∀ b ∈ l, b < 256) :
    ∀ c ∈ (hexdigest l).data, isHexDigit c = true := by
  intro c hc
  have hc2 : c ∈ l.flatMap byteHexChars := hc
  rcases List.mem_flatMap.mp hc2 with ⟨b, hb, hcb⟩
  have hb256 := hl b hb
  simp only [byteHexChars, List.mem_cons, List.not_mem_nil, or_false] at hcb
  rcases hcb with h | h <;> subst h <;> exact isHexDigit_hexChar _ (by omega)

/-! ## Characterizations of the branches of monitor_website -/

lemma monitor_website_fetch_err (inp : RunInput) (st : Option String) (s : Nat)
    (hf : fetch_webpage inp.resp = Except.error s) :
    monitor_website inp st =
      RunResult.mk st [Event.printed "Fetching the webpage...", Event.httpGet URL]
        (Outcome.fetchCrash s) := by
  unfold monitor_website
  rw [hf]

lemma monitor_website_extract_err (inp : RunInput) (st : Option String) (html : Html) (m : String)
    (hf : fetch_webpage inp.resp = Except.ok html)
    (he : extract_target_content html = Except.error m) :
    monitor_website inp st =
      RunResult.mk st
        [Event.printed "Fetching the webpage...", Event.httpGet URL,
         Event.printed "Extracting target content...", Event.printed m]
        Outcome.completed := by
  unfold monitor_website
  rw [hf]
  dsimp only
  rw [he]
  simp

lemma monitor_website_extracted (inp : RunInput) (st : Option String) (html : Html) (t : String)
    (hf : fetch_webpage inp.resp = Except.ok html)
    (he : extract_target_content html = Except.ok t) :
    monitor_website inp st =
      (match load_previous_checksum st with
       | none =>
         RunResult.mk (save_checksum (calculate_checksum t))
           [Event.printed "Fetching the webpage...", Event.httpGet URL,
            Event.printed "Extracting target content...",
            Event.printed "No previous checksum found. Saving current state...",
            Event.savedState (calculate_checksum t)]
           Outcome.completed
       | some previous_checksum =>
         if calculate_checksum t ≠ previous_checksum then
           RunResult.mk (save_checksum (calculate_checksum t))
             ([Event.printed "Fetching the webpage...", Event.httpGet URL,
               Event.printed "Extracting target content...",
               Event.printed "Change detected! Sending alert..."] ++
              send_email inp.smtpOk "Website Change Detected" (alertBody t) ++
              [Event.savedState (calculate_checksum t)])
             Outcome.completed
         else
           RunResult.mk st
             [Event.printed "Fetching the webpage...", Event.httpGet URL,
              Event.printed "Extracting target content...",
              Event.printed "No changes detected."]
             Outcome.completed) := by
  unfold monitor_website
  rw [hf]
  dsimp only
  rw [he]
  simp

lemma extractedText_eq (inp : RunInput) (html : Html) (t : String)
    (hf : fetch_webpage inp.resp = Except.ok html)
    (he : extract_target_content html = Except.ok t) :
    extractedText inp = some t := by
  unfold extractedText
  rw [hf]
  dsimp only
  rw [he]
  rfl

lemma runMain_config_fail (cfg : EmailConfig) (inp : RunInput) (st : Option String)
    (h : configOk cfg = false) :
    runMain cfg inp st =
      RunResult.mk st
        [Event.printed "Error: Missing email configuration. Check your .env file."]
        Outcome.configError := by
  simp [runMain, h]

/-! ## Claim theorems -/

/-- C9: calculate_checksum is a pure deterministic function: two calls on the
same input yield the identical digest; the digest is computed from the UTF-8
encoding of the text via MD5 and is a 32-character hex-encoded string. -/
theorem checksum_deterministic_hex (s1 s2 : String) (h : s1 = s2) :
    calculate_checksum s1 = calculate_checksum s2 ∧
    calculate_checksum s1 = hexdigest (md5Bytes (utf8Bytes s1)) ∧
    (calculate_checksum s1).length = 32 ∧
    ∀ c ∈ (calculate_checksum s1).data, isHexDigit c = true := by
  subst h
  refine ⟨rfl, rfl, ?_, ?_⟩
  · show (hexdigest (md5Bytes (utf8Bytes s1))).length = 32
    rw [hexdigest_length, md5Bytes_length]
  · exact hexdigest_hex _ (mem_md5Bytes_lt _)

/-- Witness for C9 at the concrete input "abc", whose MD5 digest is the
standard test-vector value. -/
theorem checksum_deterministic_hex_witness :
    ("abc" : String) = "abc" ∧
    calculate_checksum "abc" = calculate_checksum "abc" ∧
    calculate_checksum "abc" = hexdigest (md5Bytes (utf8Bytes "abc")) ∧
    (calculate_checksum "abc").length = 32 ∧
    ∀ c ∈ (calculate_checksum "abc").data, isHexDigit c = true :=
  ⟨rfl, checksum_deterministic_hex "abc" "abc" rfl⟩

/-- C2: invariant over runs: every run either leaves the checksum file
unchanged or writes to it exactly the fingerprint it just computed from the
text it extracted during that run; hence whenever the file exists its content
is the fingerprint of the snapshot of the last run that recorded a change or
of the first successful run. -/
theorem state_file_invariant (cfg : EmailConfig) (inp : RunInput) (st : Option String) :
    (runMain cfg inp st).state = st ∨
      ∃ t, extractedText inp = some t ∧
        (runMain cfg inp st).state = some (calculate_checksum t) := by
  by_cases hc : configOk cfg = true
  · have hrun : runMain cfg inp st = monitor_website inp st := by simp [runMain, hc]
    rw [hrun]
    rcases hf : fetch_webpage inp.resp with s | html
    · left
      rw [monitor_website_fetch_err inp st s hf]
    · rcases he : extract_target_content html with m | t
      · left
        rw [monitor_website_extract_err inp st html m hf he]
      · rw [monitor_website_extracted inp st html t hf he]
        have hext := extractedText_eq inp html t hf he
        rcases hp : load_previous_checksum st with _ | prev
        · right
          exact ⟨t, hext, rfl⟩
        · by_cases hne : calculate_checksum t ≠ prev
          · right
            refine ⟨t, hext, ?_⟩
            simp [hne, save_checksum]
          · left
            simp [hne]
  · rw [runMain_config_fail cfg inp st (by simpa using hc)]
    left
    rfl

/-- C1: when the state file holds a previous fingerprint and the fingerprint
of the newly extracted text differs from it, the run sends a notification
whose body contains the new extracted text and then persists the new
fingerprint; in the event trace the notification attempt precedes the save. -/
theorem changed_run_sends_alert_then_saves
    (inp : RunInput) (s0 : String) (html : Html) (t : String)
    (hf : fetch_webpage inp.resp = Except.ok html)
    (he : extract_target_content html = Except.ok t)
    (hne : calculate_checksum t ≠ pyStrip s0) :
    (monitor_website inp (some s0)).state = some (calculate_checksum t) ∧
    (∃ pre mid,
      (monitor_website inp (some s0)).events =
        pre ++ Event.emailAttempted "Website Change Detected" (alertBody t) ::
          (mid ++ [Event.savedState (calculate_checksum t)])) ∧
    (∃ front, alertBody t = front ++ t) := by
  rw [monitor_website_extracted inp (some s0) html t hf he]
  have hld : load_previous_checksum (some s0) = some (pyStrip s0) := rfl
  rw [hld]
  dsimp only
  rw [if_pos hne]
  refine ⟨rfl, ?_, ⟨"The specific section of the website has changed:\n\n", rfl⟩⟩
  refine ⟨[Event.printed "Fetching the webpage...", Event.httpGet URL,
           Event.printed "Extracting target content...",
           Event.printed "Change detected! Sending alert..."],
          (if inp.smtpOk then
            [Event.emailDelivered, Event.printed "Alert email sent successfully!"]
           else [Event.printed "Failed to send email"]), ?_⟩
  simp [send_email]

/-- Witness for C1: a changed run on concrete data, with stored fingerprint
"old" and new text "abc". -/
theorem changed_run_sends_alert_then_saves_witness :
    fetch_webpage (HttpResponse.mk 200 (Html.mk (some "abc"))) =
      Except.ok (Html.mk (some "abc")) ∧
    extract_target_content (Html.mk (some "abc")) = Except.ok "abc" ∧
    calculate_checksum "abc" ≠ pyStrip "old" ∧
    ((monitor_website (RunInput.mk (HttpResponse.mk 200 (Html.mk (some "abc"))) true)
        (some "old")).state = some (calculate_checksum "abc") ∧
      (∃ pre mid,
        (monitor_website (RunInput.mk (HttpResponse.mk 200 (Html.mk (some "abc"))) true)
            (some "old")).events =
          pre ++ Event.emailAttempted "Website Change Detected" (alertBody "abc") ::
            (mid ++ [Event.savedState (calculate_checksum "abc")])) ∧
      (∃ front, alertBody "abc" = front ++ "abc")) :=
  ⟨rfl, rfl, by decide,
   changed_run_sends_alert_then_saves
     (RunInput.mk (HttpResponse.mk 200 (Html.mk (some "abc"))) true) "old"
     (Html.mk (some "abc")) "abc" rfl rfl (by decide)⟩

/-- C3: a run that starts with no state file and whose fetch and extraction
succeed creates the state file with the fingerprint of the extracted text and
sends no notification. -/
theorem first_run_saves_without_alert (inp : RunInput) (html : Html) (t : String)
    (hf : fetch_webpage inp.resp = Except.ok html)
    (he : extract_target_content html = Except.ok t) :
    (monitor_website inp none).state = some (calculate_checksum t) ∧
    Event.savedState (calculate_checksum t) ∈ (monitor_website inp none).events ∧
    (monitor_website inp none).outcome = Outcome.completed ∧
    ∀ s b, Event.emailAttempted s b ∉ (monitor_website inp none).events := by
  rw [monitor_website_extracted inp none html t hf he]
  have hld : load_previous_checksum none = none := rfl
  rw [hld]
  refine ⟨rfl, by simp, rfl, ?_⟩
  intro s b
  simp

/-- Witness for C3 on concrete data. -/
theorem first_run_saves_without_alert_witness :
    fetch_webpage (HttpResponse.mk 200 (Html.mk (some "abc"))) =
      Except.ok (Html.mk (some "abc")) ∧
    extract_target_content (Html.mk (some "abc")) = Except.ok "abc" ∧
    ((monitor_website (RunInput.mk (HttpResponse.mk 200 (Html.mk (some "abc"))) true)
        none).state = some (calculate_checksum "abc") ∧
      Event.savedState (calculate_checksum "abc") ∈
        (monitor_website (RunInput.mk (HttpResponse.mk 200 (Html.mk (some "abc"))) true)
          none).events ∧
      (monitor_website (RunInput.mk (HttpResponse.mk 200 (Html.mk (some "abc"))) true)
          none).outcome = Outcome.completed ∧
      ∀ s b, Event.emailAttempted s b ∉
        (monitor_website (RunInput.mk (HttpResponse.mk 200 (Html.mk (some "abc"))) true)
          none).events) :=
  ⟨rfl, rfl,
   first_run_saves_without_alert
     (RunInput.mk (HttpResponse.mk 200 (Html.mk (some "abc"))) true)
     (Html.mk (some "abc")) "abc" rfl rfl⟩

/-- C4: on a changed run in which building or sending the email fails, the
failure is caught and logged, the run still completes normally, and the state
file is still updated to the new fingerprint. -/
theorem smtp_failure_still_saves
    (inp : RunInput) (s0 : String) (html : Html) (t : String)
    (hf : fetch_webpage inp.resp = Except.ok html)
    (he : extract_target_content html = Except.ok t)
    (hne : calculate_checksum t ≠ pyStrip s0)
    (hsm : inp.smtpOk = false) :
    (monitor_website inp (some s0)).outcome = Outcome.completed ∧
    Event.printed "Failed to send email" ∈ (monitor_website inp (some s0)).events ∧
    (monitor_website inp (some s0)).state = some (calculate_checksum t) ∧
    Event.savedState (calculate_checksum t) ∈ (monitor_website inp (some s0)).events := by
  rw [monitor_website_extracted inp (some s0) html t hf he]
  have hld : load_previous_checksum (some s0) = some (pyStrip s0) := rfl
  rw [hld]
  dsimp only
  rw [if_pos hne]
  refine ⟨rfl, ?_, rfl, ?_⟩ <;> simp [send_email, hsm]

/-- Witness for C4 on concrete data with a failing SMTP session. -/
theorem smtp_failure_still_saves_witness :
    fetch_webpage (HttpResponse.mk 200 (Html.mk (some "abc"))) =
      Except.ok (Html.mk (some "abc")) ∧
    extract_target_content (Html.mk (some "abc")) = Except.ok "abc" ∧
    calculate_checksum "abc" ≠ pyStrip "old" ∧
    (RunInput.mk (HttpResponse.mk 200 (Html.mk (some "abc"))) false).smtpOk = false ∧
    ((monitor_website (RunInput.mk (HttpResponse.mk 200 (Html.mk (some "abc"))) false)
        (some "old")).outcome = Outcome.completed ∧
      Event.printed "Failed to send email" ∈
        (monitor_website (RunInput.mk (HttpResponse.mk 200 (Html.mk (some "abc"))) false)
          (some "old")).events ∧
      (monitor_website (RunInput.mk (HttpResponse.mk 200 (Html.mk (some "abc"))) false)
          (some "old")).state = some (calculate_checksum "abc") ∧
      Event.savedState (calculate_checksum "abc") ∈
        (monitor_website (RunInput.mk (HttpResponse.mk 200 (Html.mk (some "abc"))) false)
          (some "old")).events) :=
  ⟨rfl, rfl, by decide, rfl,
   smtp_failure_still_saves
     (RunInput.mk (HttpResponse.mk 200 (Html.mk (some "abc"))) false) "old"
     (Html.mk (some "abc")) "abc" rfl rfl (by decide) rfl⟩

/-- C5: when the stored fingerprint equals the newly computed one, the run
has no side effects: no notification is attempted, nothing is saved, and the
state file keeps its exact prior content. -/
theorem unchanged_run_has_no_side_effects
    (inp : RunInput) (s0 : String) (html : Html) (t : String)
    (hf : fetch_webpage inp.resp = Except.ok html)
    (he : extract_target_content html = Except.ok t)
    (heq : calculate_checksum t = pyStrip s0) :
    (monitor_website inp (some s0)).state = some s0 ∧
    (monitor_website inp (some s0)).outcome = Outcome.completed ∧
    (∀ s b, Event.emailAttempted s b ∉ (monitor_website inp (some s0)).events) ∧
    (∀ c, Event.savedState c ∉ (monitor_website inp (some s0)).events) := by
  rw [monitor_website_extracted inp (some s0) html t hf he]
  have hld : load_previous_checksum (some s0) = some (pyStrip s0) := rfl
  rw [hld]
  dsimp only
  rw [if_neg (by simp [heq])]
  exact ⟨rfl, rfl, by intro s b; simp, by intro c; simp⟩

/-- Witness for C5: the stored value is exactly the digest of the current
text, so the run changes nothing. -/
theorem unchanged_run_has_no_side_effects_witness :
    fetch_webpage (HttpResponse.mk 200 (Html.mk (some "abc"))) =
      Except.ok (Html.mk (some "abc")) ∧
    extract_target_content (Html.mk (some "abc")) = Except.ok "abc" ∧
    calculate_checksum "abc" = pyStrip (calculate_checksum "abc") ∧
    ((monitor_website (RunInput.mk (HttpResponse.mk 200 (Html.mk (some "abc"))) true)
        (some (calculate_checksum "abc"))).state = some (calculate_checksum "abc") ∧
      (monitor_website (RunInput.mk (HttpResponse.mk 200 (Html.mk (some "abc"))) true)
          (some (calculate_checksum "abc"))).outcome = Outcome.completed ∧
      (∀ s b, Event.emailAttempted s b ∉
        (monitor_website (RunInput.mk (HttpResponse.mk 200 (Html.mk (some "abc"))) true)
          (some (calculate_checksum "abc"))).events) ∧
      (∀ c, Event.savedState c ∉
        (monitor_website (RunInput.mk (HttpResponse.mk 200 (Html.mk (some "abc"))) true)
          (some (calculate_checksum "abc"))).events)) :=
  ⟨rfl, rfl, by decide,
   unchanged_run_has_no_side_effects
     (RunInput.mk (HttpResponse.mk 200 (Html.mk (some "abc"))) true)
     (calculate_checksum "abc") (Html.mk (some "abc")) "abc"
     rfl rfl (by decide)⟩

/-- C6: if any of the three credential values is absent, the program reports
a configuration error and halts before any network call, with no HTTP fetch,
no email attempt, and the state file untouched. -/
theorem missing_config_halts (cfg : EmailConfig) (inp : RunInput) (st : Option String)
    (h : cfg.sender = none ∨ cfg.password = none ∨ cfg.receiver = none) :
    (runMain cfg inp st).outcome = Outcome.configError ∧
    (runMain cfg inp st).state = st ∧
    Event.printed "Error: Missing email configuration. Check your .env file." ∈
      (runMain cfg inp st).events ∧
    (∀ u, Event.httpGet u ∉ (runMain cfg inp st).events) ∧
    (∀ s b, Event.emailAttempted s b ∉ (runMain cfg inp st).events) ∧
    Event.emailDelivered ∉ (runMain cfg inp st).events ∧
    (∀ c, Event.savedState c ∉ (runMain cfg inp st).events) := by
  have hc : configOk cfg = false := by
    rcases h with h | h | h <;> simp [configOk, h, truthy]
  rw [runMain_config_fail cfg inp st hc]
  exact ⟨rfl, rfl, by simp, fun u => by simp, fun s b => by simp, by simp, fun c => by simp⟩

/-- Witness for C6: the sender value is absent. -/
theorem missing_config_halts_witness :
    (EmailConfig.mk none (some "p") (some "r")).sender = none ∧
    ((runMain (EmailConfig.mk none (some "p") (some "r"))
        (RunInput.mk (HttpResponse.mk 200 (Html.mk (some "abc"))) true)
        (some "old")).outcome = Outcome.configError ∧
      (runMain (EmailConfig.mk none (some "p") (some "r"))
        (RunInput.mk (HttpResponse.mk 200 (Html.mk (some "abc"))) true)
        (some "old")).state = some "old" ∧
      Event.printed "Error: Missing email configuration. Check your .env file." ∈
        (runMain (EmailConfig.mk none (some "p") (some "r"))
          (RunInput.mk (HttpResponse.mk 200 (Html.mk (some "abc"))) true)
          (some "old")).events ∧
      (∀ u, Event.httpGet u ∉
        (runMain (EmailConfig.mk none (some "p") (some "r"))
          (RunInput.mk (HttpResponse.mk 200 (Html.mk (some "abc"))) true)
          (some "old")).events) ∧
      (∀ s b, Event.emailAttempted s b ∉
        (runMain (EmailConfig.mk none (some "p") (some "r"))
          (RunInput.mk (HttpResponse.mk 200 (Html.mk (some "abc"))) true)
          (some "old")).events) ∧
      Event.emailDelivered ∉
        (runMain (EmailConfig.mk none (some "p") (some "r"))
          (RunInput.mk (HttpResponse.mk 200 (Html.mk (some "abc"))) true)
          (some "old")).events ∧
      (∀ c, Event.savedState c ∉
        (runMain (EmailConfig.mk none (some "p") (some "r"))
          (RunInput.mk (HttpResponse.mk 200 (Html.mk (some "abc"))) true)
          (some "old")).events)) :=
  ⟨rfl,
   missing_config_halts (EmailConfig.mk none (some "p") (some "r"))
     (RunInput.mk (HttpResponse.mk 200 (Html.mk (some "abc"))) true)
     (some "old") (Or.inl rfl)⟩

/-- C10: the configuration guard tests truthiness, so an empty-string value
of any of the three credentials behaves exactly like an absent one: the run
halts with the configuration error before any monitoring. -/
theorem empty_string_config_halts (cfg : EmailConfig) (inp : RunInput) (st : Option String)
    (h : cfg.sender = some "" ∨ cfg.password = some "" ∨ cfg.receiver = some "") :
    (runMain cfg inp st).outcome = Outcome.configError ∧
    (runMain cfg inp st).state = st ∧
    Event.printed "Error: Missing email configuration. Check your .env file." ∈
      (runMain cfg inp st).events ∧
    (∀ u, Event.httpGet u ∉ (runMain cfg inp st).events) ∧
    (∀ s b, Event.emailAttempted s b ∉ (runMain cfg inp st).events) ∧
    (∀ c, Event.savedState c ∉ (runMain cfg inp st).events) := by
  have ht : truthy (some "") = false := by decide
  have hc : configOk cfg = false := by
    rcases h with h | h | h <;> simp [configOk, h, ht]
  rw [runMain_config_fail cfg inp st hc]
  exact ⟨rfl, rfl, by simp, fun u => by simp, fun s b => by simp, fun c => by simp⟩

/-- Witness for C10: the password value is the empty string. -/
theorem empty_string_config_halts_witness :
    (EmailConfig.mk (some "s") (some "") (some "r")).password = some "" ∧
    ((runMain (EmailConfig.mk (some "s") (some "") (some "r"))
        (RunInput.mk (HttpResponse.mk 200 (Html.mk (some "abc"))) true)
        none).outcome = Outcome.configError ∧
      (runMain (EmailConfig.mk (some "s") (some "") (some "r"))
        (RunInput.mk (HttpResponse.mk 200 (Html.mk (some "abc"))) true)
        none).state = none ∧
      Event.printed "Error: Missing email configuration. Check your .env file." ∈
        (runMain (EmailConfig.mk (some "s") (some "") (some "r"))
          (RunInput.mk (HttpResponse.mk 200 (Html.mk (some "abc"))) true)
          none).events ∧
      (∀ u, Event.httpGet u ∉
        (runMain (EmailConfig.mk (some "s") (some "") (some "r"))
          (RunInput.mk (HttpResponse.mk 200 (Html.mk (some "abc"))) true)
          none).events) ∧
      (∀ s b, Event.emailAttempted s b ∉
        (runMain (EmailConfig.mk (some "s") (some "") (some "r"))
          (RunInput.mk (HttpResponse.mk 200 (Html.mk (some "abc"))) true)
          none).events) ∧
      (∀ c, Event.savedState c ∉
        (runMain (EmailConfig.mk (some "s") (some "") (some "r"))
          (RunInput.mk (HttpResponse.mk 200 (Html.mk (some "abc"))) true)
          none).events)) :=
  ⟨rfl,
   empty_string_config_halts (EmailConfig.mk (some "s") (some "") (some "r"))
     (RunInput.mk (HttpResponse.mk 200 (Html.mk (some "abc"))) true)
     none (Or.inr (Or.inl rfl))⟩

/-- C7 counterexample: status 304 is not a 2xx status, yet fetch_webpage
returns the body instead of failing, because raise_for_status raises only
for statuses in 400..599. -/
theorem non2xx_fetch_succeeds_at_304 :
    ¬(200 ≤ 304 ∧ 304 < 300) ∧
    fetch_webpage (HttpResponse.mk 304 (Html.mk (some "x"))) =
      Except.ok (Html.mk (some "x")) :=
  ⟨by omega, rfl⟩

/-- C7 amended: fetch_webpage fails with an error carrying the status
exactly on 4xx and 5xx statuses, in which case the run aborts with the state
file untouched, no notification and no save; on every 2xx status it returns
the response body. -/
theorem fetch_status_handling (resp : HttpResponse) (smtpOk : Bool) (st : Option String) :
    (400 ≤ resp.status ∧ resp.status < 600 →
      fetch_webpage resp = Except.error resp.status ∧
      (monitor_website (RunInput.mk resp smtpOk) st).outcome = Outcome.fetchCrash resp.status ∧
      (monitor_website (RunInput.mk resp smtpOk) st).state = st ∧
      (∀ s b, Event.emailAttempted s b ∉ (monitor_website (RunInput.mk resp smtpOk) st).events) ∧
      (∀ c, Event.savedState c ∉ (monitor_website (RunInput.mk resp smtpOk) st).events)) ∧
    (200 ≤ resp.status ∧ resp.status < 300 → fetch_webpage resp = Except.ok resp.text) := by
  constructor
  · intro h
    have hf : fetch_webpage resp = Except.error resp.status := by
      simp [fetch_webpage, h]
    rw [monitor_website_fetch_err (RunInput.mk resp smtpOk) st resp.status hf]
    exact ⟨hf, rfl, rfl, fun s b => by simp, fun c => by simp⟩
  · intro h
    have hn : ¬(400 ≤ resp.status ∧ resp.status < 600) := by omega
    simp [fetch_webpage, hn]

/-- Witness for C7 amended: a 404 response crashes the run with the state
untouched, and a 200 response returns the body. -/
theorem fetch_status_handling_witness :
    ((400 ≤ 404 ∧ 404 < 600) ∧
      fetch_webpage (HttpResponse.mk 404 (Html.mk none)) = Except.error 404 ∧
      (monitor_website (RunInput.mk (HttpResponse.mk 404 (Html.mk none)) true)
        (some "old")).outcome = Outcome.fetchCrash 404 ∧
      (monitor_website (RunInput.mk (HttpResponse.mk 404 (Html.mk none)) true)
        (some "old")).state = some "old" ∧
      (∀ s b, Event.emailAttempted s b ∉
        (monitor_website (RunInput.mk (HttpResponse.mk 404 (Html.mk none)) true)
          (some "old")).events) ∧
      (∀ c, Event.savedState c ∉
        (monitor_website (RunInput.mk (HttpResponse.mk 404 (Html.mk none)) true)
          (some "old")).events)) ∧
    ((200 ≤ 200 ∧ 200 < 300) ∧
      fetch_webpage (HttpResponse.mk 200 (Html.mk none)) = Except.ok (Html.mk none)) :=
  ⟨⟨⟨by omega, by omega⟩,
    (fetch_status_handling (HttpResponse.mk 404 (Html.mk none)) true (some "old")).1
      ⟨by decide, by decide⟩⟩,
   ⟨⟨by omega, by omega⟩,
    (fetch_status_handling (HttpResponse.mk 200 (Html.mk none)) true (some "old")).2
      ⟨by decide, by decide⟩⟩⟩

/-- C8: when the fetched HTML lacks the target div, extraction fails with
the ValueError message, the run prints it and ends with no state mutation
and no notification; when the div is present, extraction returns its text
with surrounding whitespace stripped. -/
theorem extraction_behavior (inp : RunInput) (st : Option String) (html : Html) (x : String)
    (hf : fetch_webpage inp.resp = Except.ok html) :
    (html.home = none →
      extract_target_content html = Except.error "Target <div> not found on the webpage." ∧
      (monitor_website inp st).state = st ∧
      (monitor_website inp st).outcome = Outcome.completed ∧
      Event.printed "Target <div> not found on the webpage." ∈ (monitor_website inp st).events ∧
      (∀ s b, Event.emailAttempted s b ∉ (monitor_website inp st).events) ∧
      (∀ c, Event.savedState c ∉ (monitor_website inp st).events)) ∧
    (html.home = some x → extract_target_content html = Except.ok (pyStrip x)) := by
  constructor
  · intro hn
    have he : extract_target_content html =
        Except.error "Target <div> not found on the webpage." := by
      simp [extract_target_content, hn]
    rw [monitor_website_extract_err inp st html _ hf he]
    exact ⟨he, rfl, rfl, by simp, fun s b => by simp, fun c => by simp⟩
  · intro hs
    simp [extract_target_content, hs]

/-- Witness for C8: a page without the target div aborts with no state
mutation, and a page whose div text has surrounding whitespace yields the
stripped text. -/
theorem extraction_behavior_witness :
    ((Html.mk none).home = none ∧
      (extract_target_content (Html.mk none) =
          Except.error "Target <div> not found on the webpage." ∧
        (monitor_website (RunInput.mk (HttpResponse.mk 200 (Html.mk none)) true)
          (some "old")).state = some "old" ∧
        (monitor_website (RunInput.mk (HttpResponse.mk 200 (Html.mk none)) true)
          (some "old")).outcome = Outcome.completed ∧
        Event.printed "Target <div> not found on the webpage." ∈
          (monitor_website (RunInput.mk (HttpResponse.mk 200 (Html.mk none)) true)
            (some "old")).events ∧
        (∀ s b, Event.emailAttempted s b ∉
          (monitor_website (RunInput.mk (HttpResponse.mk 200 (Html.mk none)) true)
            (some "old")).events) ∧
        (∀ c, Event.savedState c ∉
          (monitor_website (RunInput.mk (HttpResponse.mk 200 (Html.mk none)) true)
            (some "old")).events))) ∧
    ((Html.mk (some "  a  ")).home = some "  a  " ∧
      extract_target_content (Html.mk (some "  a  ")) = Except.ok "a") :=
  ⟨⟨rfl,
    (extraction_behavior (RunInput.mk (HttpResponse.mk 200 (Html.mk none)) true)
      (some "old") (Html.mk none) "" rfl).1 rfl⟩,
   ⟨rfl,
    (extraction_behavior (RunInput.mk (HttpResponse.mk 200 (Html.mk (some "  a  "))) true)
      (some "old") (Html.mk (some "  a  ")) "  a  " rfl).2 rfl⟩⟩

end WebMonitor
